import Mathlib

/-!
# Verification of the PromptWeaver video-generation core

Shallow embedding of the server-side generation pipeline:
the term-scored caches (`findCachedClips`, `searchMediaItems` from the
storage layer), the five-tier footage acquisition cascade
(`searchAndDownloadVideos` from `pexels.ts`), the voiceover cache
(`generateSpeech` from the audio service), the caption timing engine
(`estimateWordTimings`, `generateASSSubtitles` from the subtitle module)
and the duration-reconciliation step of `generateVideo`.

Modelling conventions:
* JavaScript strings are modelled as `List Char` (`Str`).  JS indexes
  UTF-16 code units; for the ASCII data manipulated here the two views
  coincide.  `toLowerCase` is modelled with `Char.toLower` (ASCII).
* The database tables (`cachedVideoClips`, `mediaLibrary`) are explicit
  lists of rows threaded through the state; the filesystem is the set of
  existing paths.  `process.cwd()/public` path prefixes are dropped.
* Network effects (Pexels search, file download) are oracles inside `Env`;
  the state counts every attempted network fetch in `netCalls`.
* Fractional seconds are rational numbers; the JS float literal `0.95`
  is modelled as the exact rational `95/100`, `Math.round` as
  `fun x => ⌊x + 1/2⌋`.
* MD5 (`getVoiceoverCacheKey`) is modelled by an injective encoding of the
  hashed preimage string; hash collisions are ignored.
-/

abbrev Str := List Char

/-- Whitespace test matching the character class of the JS regexes
`/\s+/` for the data in this codebase (ASCII whitespace). -/
def isWsChar (c : Char) : Bool :=
  c == ' ' || c == '\t' || c == '\n' || c == '\r'

/-- Split on every character satisfying `p`; pieces may be empty.
Models `String.prototype.split` with a single-character separator class;
runs of separators produce empty pieces, which every call site filters
away by a length bound. -/
def splitPredAux (p : Char → Bool) (cur : Str) : Str → List Str
  | [] => [cur.reverse]
  | c :: rest =>
      if p c then cur.reverse :: splitPredAux p [] rest
      else splitPredAux p (c :: cur) rest

def splitPred (p : Char → Bool) (s : Str) : List Str :=
  splitPredAux p [] s

/-- `s.split(/\s+/)` up to empty pieces (see `splitPredAux`): every use in
the source filters the result by a positive length bound, under which the
two splits agree. -/
def wsSplit (s : Str) : List Str :=
  splitPred isWsChar s

def splitChar (sep : Char) (s : Str) : List Str :=
  splitPred (· == sep) s

def toLowerStr (s : Str) : Str :=
  s.map Char.toLower

/-- `String.prototype.trim` (ASCII whitespace). -/
def trimCL (s : Str) : Str :=
  ((s.dropWhile isWsChar).reverse.dropWhile isWsChar).reverse

/-- `big.startsWith(pat)`. -/
def startsWithCL : Str → Str → Bool
  | _, [] => true
  | [], _ :: _ => false
  | a :: as, b :: bs => a == b && startsWithCL as bs

/-- `big.includes(pat)` (substring test). -/
def hasSub : Str → Str → Bool
  | [], pat => startsWithCL [] pat
  | c :: r, pat => startsWithCL (c :: r) pat || hasSub r pat

/-- `Array.prototype.join(" ")`. -/
def joinSpace : List Str → Str
  | [] => []
  | [w] => w
  | w :: r => w ++ ' ' :: joinSpace r

/-- `Array.from(new Set(xs))`: deduplicate keeping first occurrences. -/
def dedupAux [BEq α] (seen : List α) : List α → List α
  | [] => []
  | x :: r => if seen.contains x then dedupAux seen r else x :: dedupAux (x :: seen) r

def dedupKeepFirst [BEq α] (l : List α) : List α :=
  dedupAux [] l

/-- `path.basename`: last `/`-separated component. -/
def lastComp (p : Str) : Str :=
  (splitChar '/' p).getLastD p

def natStr (n : Nat) : Str :=
  (Nat.repr n).data

/-- Record a path as existing (`fs.writeFileSync` / `linkSync` /
`copyFileSync` targets); idempotent, paths form a set. -/
def addFile (files : List Str) (p : Str) : List Str :=
  if files.contains p then files else files ++ [p]

/-! ## Data model (rows of `cachedVideoClips` and `mediaLibrary`,
Pexels API payloads, scenes) -/

/-- A row of the `mediaLibrary` table (fields used by the search and the
cascade; `description` is `''` when NULL, matching `item.description || ''`). -/
structure MediaItem where
  id : Nat
  title : Str
  description : Str
  filePath : Str
  tags : List Str
  orientation : Str
  deriving DecidableEq

/-- A row of the `cachedVideoClips` table. -/
structure CachedClip where
  id : Nat
  pexelsId : Nat
  filePath : Str
  searchTerms : List Str
  duration : Nat
  orientation : Str
  deriving DecidableEq

/-- One entry of a Pexels video's `video_files` array. -/
structure VFile where
  quality : Str
  fileType : Str
  width : Nat
  height : Nat
  deriving DecidableEq

/-- A Pexels API search result. -/
structure Video where
  id : Nat
  duration : Nat
  files : List VFile
  deriving DecidableEq

/-- A generated scene (subtitle-relevant fields; `text` is `''` when the
optional caption is absent, matching `s.text || ''`). -/
structure Scene where
  text : Str
  deriving DecidableEq

/-! ## Term-scored cache (storage layer) -/

/-- Significant query tokens: `query.toLowerCase().trim().split(/\s+/)
.filter(w => w.length > 2)` — shared by `findCachedClips` and
`searchMediaItems`. -/
def significantWords (s : Str) : List Str :=
  (wsSplit (trimCL (toLowerStr s))).filter (fun w => 2 < w.length)

/-- Clip score from `findCachedClips`: one point per query word that
matches some stored term (the inner loop breaks at the first matching
term, so a word counts at most once). -/
def clipScore (searchWords : List Str) (clip : CachedClip) : Nat :=
  (searchWords.filter
    (fun w => clip.searchTerms.any (fun t => hasSub t w || hasSub w t))).length

/-- Insert into a score-descending list before the first entry of strictly
smaller score, so an element inserted into the sorted rest of its list goes
ahead of later elements with equal score: together with `sortByScoreDesc`
this is the stable descending sort performed by
`.sort((a, b) => b.score - a.score)` (ties keep original order). -/
def insertByScoreDesc (x : α × Nat) : List (α × Nat) → List (α × Nat)
  | [] => [x]
  | y :: ys => if x.2 < y.2 then y :: insertByScoreDesc x ys else x :: y :: ys

def sortByScoreDesc : List (α × Nat) → List (α × Nat)
  | [] => []
  | x :: xs => insertByScoreDesc x (sortByScoreDesc xs)

/-- `DatabaseStorage.findCachedClips`: tokenize the query, return `[]` on
zero significant tokens, else score the first 50 clips of the requested
orientation, keep positive scores, sort descending, truncate to `limit`. -/
def findCachedClips (clips : List CachedClip) (searchTerm orientation : Str)
    (limit : Nat) : List CachedClip :=
  let searchWords := significantWords searchTerm
  if searchWords.length = 0 then []
  else
    let cands := (clips.filter (fun c => c.orientation == orientation)).take 50
    let scored := cands.map (fun c => (c, clipScore searchWords c))
    (((sortByScoreDesc (scored.filter (fun s => 0 < s.2))).take limit).map (·.1))

/-- One query word's contribution in the `searchMediaItems` scoring loop:
3 for a title match, 2 for a description match, 2 for a tag match. -/
def mediaScoreStep (titleLower descLower : Str) (tags : List Str)
    (score : Nat) (w : Str) : Nat :=
  let s1 := if hasSub titleLower w then score + 3 else score
  let s2 := if hasSub descLower w then s1 + 2 else s1
  if tags.any (fun tag => hasSub tag w) then s2 + 2 else s2

/-- Item score from `searchMediaItems`: each query word adds 3 for a title
match, 2 for a description match and 2 for a tag match (up to 7 per word). -/
def mediaScore (searchWords : List Str) (item : MediaItem) : Nat :=
  searchWords.foldl
    (mediaScoreStep (toLowerStr item.title) (toLowerStr item.description)
      item.tags)
    0

/-- `DatabaseStorage.searchMediaItems`: first 100 rows (newest first),
optional orientation filter; on zero significant tokens ALL candidates are
returned; otherwise positive-score candidates sorted descending. -/
def searchMediaItems (itemsDB : List MediaItem) (query : Str)
    (orientation : Option Str) : List MediaItem :=
  let searchWords := significantWords query
  let items0 := itemsDB.take 100
  let items := match orientation with
    | some o => items0.filter (fun it => it.orientation == o)
    | none => items0
  if searchWords.length = 0 then items
  else
    ((sortByScoreDesc
        ((items.map (fun it => (it, mediaScore searchWords it))).filter
          (fun s => 0 < s.2))).map (·.1))

/-! ## Pexels service (`pexels.ts`) -/

/-- The effects outside the job: API key presence, Pexels search responses
(`none` = non-ok HTTP response, keyed by query, orientation and per-page),
per-video download success, and the `mediaLibrary` table (newest first, as
delivered by `orderBy(desc(createdAt))`). -/
structure Env where
  apiKeySet : Bool
  searchResp : Str → Str → Nat → Option (List Video)
  downloadOk : Nat → Bool
  mediaDB : List MediaItem

/-- Mutable world threaded through one `searchAndDownloadVideos` job:
the `cachedVideoClips` table, existing file paths, the two per-job
used-ID sets (as lists consed once per selection), the count of attempted
network fetches, and the two source counters. -/
structure St where
  clips : List CachedClip
  files : List Str
  usedVideoIds : List Nat
  usedMediaIds : List Nat
  netCalls : Nat
  fromCache : Nat
  fromLibrary : Nat

def initSt (clips : List CachedClip) (files : List Str) : St :=
  ⟨clips, files, [], [], 0, 0, 0⟩

/-- Provenance of a resolved scene path: a Pexels provider ID or a
media-library item ID. -/
inductive Tag where
  | pexels (id : Nat)
  | media (id : Nat)
  deriving DecidableEq

def Tag.pexelsId? : Tag → Option Nat
  | .pexels i => some i
  | .media _ => none

def Tag.mediaId? : Tag → Option Nat
  | .media i => some i
  | .pexels _ => none

/-- `searchVideos` (pexels.ts:39-81): throws a configuration error before
any fetch when the API key is absent; with the key set the fetch is
attempted and a non-ok response is an API error. -/
def searchVideos (env : Env) (query orientation : Str) (perPage : Nat) :
    Except Str (List Video) :=
  if !env.apiKeySet then .error "PEXELS_API_KEY is not set".data
  else match env.searchResp query orientation perPage with
    | none => .error "Pexels API error".data
    | some vs => .ok vs

def mp4Type : Str := "video/mp4".data

/-- File selection in `downloadVideo`: hd mp4, else sd mp4, else any mp4
(the cascade always asks for preferred quality "hd"). -/
def chooseFile (video : Video) : Option VFile :=
  let hdFile := video.files.find? (fun f => f.quality == "hd".data && f.fileType == mp4Type)
  let sdFile := video.files.find? (fun f => f.quality == "sd".data && f.fileType == mp4Type)
  let anyFile := video.files.find? (fun f => f.fileType == mp4Type)
  (hdFile.or sdFile).or anyFile

def pexelsFileName (id : Nat) : Str :=
  "pexels_".data ++ natStr id ++ ".mp4".data

/-- `CACHE_DIR` with the `process.cwd()` prefix dropped. -/
def cacheDir : Str := "public/cache/videos".data

/-- `DatabaseStorage.addSearchTermToClip`: union one term into a clip row
(first-occurrence order preserved). -/
def addSearchTermToClip (clips : List CachedClip) (rowId : Nat) (term : Str) :
    List CachedClip :=
  clips.map (fun c =>
    if c.id == rowId then
      { c with searchTerms := dedupKeepFirst (c.searchTerms ++ [term]) }
    else c)

/-- `DatabaseStorage.saveCachedClip`: never store an empty term set
(`['uncategorized']` default); merge terms into an existing row for the
same Pexels ID (updating the file path), else insert a new row whose row
id is one past the maximum. -/
def saveCachedClip (clips : List CachedClip) (pexelsId : Nat) (filePath : Str)
    (terms : List Str) (duration : Nat) (orientation : Str) : List CachedClip :=
  let terms := if terms.isEmpty then ["uncategorized".data] else terms
  match clips.find? (fun c => c.pexelsId == pexelsId) with
  | some _ =>
      clips.map (fun c =>
        if c.pexelsId == pexelsId then
          { c with filePath := filePath
                   searchTerms := dedupKeepFirst (c.searchTerms ++ terms) }
        else c)
  | none =>
      clips ++ [⟨(clips.map (·.id)).foldl max 0 + 1, pexelsId, filePath, terms,
                 duration, orientation⟩]

/-- The cache-miss tail of `downloadVideo` (pexels.ts:124-162): fetch into
the durable cache (one attempted network call) unless the cache file
already exists, upsert the row, link into the job directory. -/
def downloadFresh (env : Env) (st : St) (video : Video) (outputDir : Str)
    (searchTerm orientation : Str) : Option Str × St :=
  let cachePath := cacheDir ++ '/' :: pexelsFileName video.id
  if st.files.contains cachePath then
    let st := { st with
      clips := saveCachedClip st.clips video.id cachePath
        (if searchTerm.isEmpty then [] else [toLowerStr searchTerm])
        video.duration orientation }
    let outputPath := outputDir ++ '/' :: pexelsFileName video.id
    (some outputPath, { st with files := addFile st.files outputPath })
  else
    let st := { st with netCalls := st.netCalls + 1 }
    if !env.downloadOk video.id then (none, st)
    else
      let st := { st with files := addFile st.files cachePath }
      let st := { st with
        clips := saveCachedClip st.clips video.id cachePath
          (if searchTerm.isEmpty then [] else [toLowerStr searchTerm])
          video.duration orientation }
      let outputPath := outputDir ++ '/' :: pexelsFileName video.id
      (some outputPath, { st with files := addFile st.files outputPath })

/-- `downloadVideo` (pexels.ts:83-163) under the call-site `try`/`catch`:
`none` models a swallowed throw.  A cached row with a live file is
hard-linked into the job directory (merging the search term); otherwise
`downloadFresh` fetches and persists it. -/
def downloadVideo (env : Env) (st : St) (video : Video) (outputDir : Str)
    (searchTerm orientation : Str) : Option Str × St :=
  match chooseFile video with
  | none => (none, st)
  | some _ =>
    match st.clips.find? (fun c => c.pexelsId == video.id) with
    | some cachedClip =>
      if st.files.contains cachedClip.filePath then
        let st :=
          if !searchTerm.isEmpty &&
             !cachedClip.searchTerms.contains (toLowerStr searchTerm) then
            { st with clips := addSearchTermToClip st.clips cachedClip.id
                        (toLowerStr searchTerm) }
          else st
        let outputPath := outputDir ++ '/' :: pexelsFileName video.id
        (some outputPath, { st with files := addFile st.files outputPath })
      else
        downloadFresh env st video outputDir searchTerm orientation
    | none => downloadFresh env st video outputDir searchTerm orientation

/-- The ten broad fallback queries of the remote-search tier. -/
def fallbackQueries : List Str :=
  ["nature".data, "city".data, "technology".data, "abstract".data,
   "sky".data, "ocean".data, "business".data, "people walking".data,
   "traffic".data, "clouds".data]

def stopWords : List Str :=
  ["the".data, "a".data, "an".data, "and".data, "or".data, "but".data,
   "in".data, "on".data, "at".data, "to".data, "for".data, "of".data,
   "with".data, "by".data]

/-- `simplifyQuery` (pexels.ts:179-187): stop-word-stripped two-word
simplification, falling back to the first whitespace-separated piece. -/
def simplifyQuery (query : Str) : Str :=
  let words := ((wsSplit (toLowerStr query)).filter
    (fun w => !stopWords.contains w && 2 < w.length)).take 2
  let joined := joinSpace words
  if joined.isEmpty then (wsSplit query).headD [] else joined

/-- Tier-3 query ladder (pexels.ts:300-309): original, simplified, up to 3
significant words, the ten fallbacks; duplicates removed keeping first
occurrences (`Array.from(new Set(...))`). -/
def uniqueQueriesFor (query : Str) : List Str :=
  let queryWords := (wsSplit (toLowerStr query)).filter (fun w => 2 < w.length)
  dedupKeepFirst ([query, simplifyQuery query] ++ queryWords.take 3 ++ fallbackQueries)

/-! ## Footage acquisition cascade (`searchAndDownloadVideos`) -/

/-- Tier 1 inner loop (pexels.ts:242-260): first unused media-library item
whose file exists is copied into the job directory.  The `Date.now()`
component of the copy's name is not modelled. -/
def libraryLoop (st : St) (outputDir : Str) : List MediaItem →
    Option (Str × Tag) × St
  | [] => (none, st)
  | item :: rest =>
    if st.usedMediaIds.contains item.id then libraryLoop st outputDir rest
    else
      let actualPath :=
        if startsWithCL item.filePath "/media/".data then
          "public".data ++ item.filePath
        else item.filePath
      if st.files.contains actualPath then
        let fileName := lastComp actualPath
        let outputPath := outputDir ++ "/library_".data ++ fileName
        (some (outputPath, Tag.media item.id),
         { st with files := addFile st.files outputPath,
                   usedMediaIds := item.id :: st.usedMediaIds,
                   fromLibrary := st.fromLibrary + 1 })
      else libraryLoop st outputDir rest

/-- Cache-hit inner loop shared by tier 2 (pexels.ts:270-289, `tag` =
`"pexels_"`) and tier 4 (pexels.ts:349-367, `tag` = `"fallback_"`): first
unused cached clip whose file exists is linked into the job directory. -/
def cacheLoop (st : St) (outputDir : Str) (tag : Str) : List CachedClip →
    Option (Str × Tag) × St
  | [] => (none, st)
  | cached :: rest =>
    if st.usedVideoIds.contains cached.pexelsId then
      cacheLoop st outputDir tag rest
    else if st.files.contains cached.filePath then
      let outputPath := outputDir ++ '/' :: tag ++ natStr cached.pexelsId ++ ".mp4".data
      (some (outputPath, Tag.pexels cached.pexelsId),
       { st with files := addFile st.files outputPath,
                 usedVideoIds := cached.pexelsId :: st.usedVideoIds,
                 fromCache := st.fromCache + 1 })
    else cacheLoop st outputDir tag rest

/-- Download inner loop shared by tier 3 (pexels.ts:321-335) and tier 5
(pexels.ts:386-398): first unused search result that downloads
successfully; failed downloads are swallowed and the next result tried. -/
def tryDownloadList (env : Env) (st : St) (outputDir : Str)
    (searchTerm orientation : Str) : List Video → Option (Str × Tag) × St
  | [] => (none, st)
  | v :: rest =>
    if st.usedVideoIds.contains v.id then
      tryDownloadList env st outputDir searchTerm orientation rest
    else
      match downloadVideo env st v outputDir searchTerm orientation with
      | (some p, st') =>
        (some (p, Tag.pexels v.id),
         { st' with usedVideoIds := v.id :: st'.usedVideoIds })
      | (none, st') => tryDownloadList env st' outputDir searchTerm orientation rest

/-- Search-query loop shared by tier 3 (pexels.ts:311-339, per-page 10,
requested orientation, download term = the original scene query) and
tier 5 (pexels.ts:378-402, per-page 5, orientation defaulted to
`"landscape"` by `searchVideos`, download term = the emergency query):
search failures, including the missing-key throw, are swallowed. -/
def searchLoop (env : Env) (outputDir searchOrient dlOrient : Str)
    (perPage : Nat) (termOf : Str → Str) :
    List Str → St → Option (Str × Tag) × St
  | [], st => (none, st)
  | q :: rest, st =>
    if !env.apiKeySet then
      searchLoop env outputDir searchOrient dlOrient perPage termOf rest st
    else
      let st := { st with netCalls := st.netCalls + 1 }
      match env.searchResp q searchOrient perPage with
      | none => searchLoop env outputDir searchOrient dlOrient perPage termOf rest st
      | some videos =>
        match tryDownloadList env st outputDir (termOf q) dlOrient videos with
        | (some r, st') => (some r, st')
        | (none, st') =>
          searchLoop env outputDir searchOrient dlOrient perPage termOf rest st'

/-- Tier 4 outer loop (pexels.ts:346-368): requested orientation first,
then the opposite, querying the durable cache with the empty query. -/
def crossOrientLoop (st : St) (outputDir : Str) : List Str →
    Option (Str × Tag) × St
  | [] => (none, st)
  | o :: rest =>
    match cacheLoop st outputDir "fallback_".data
        (findCachedClips st.clips [] o 20) with
    | (some r, st') => (some r, st')
    | (none, st') => crossOrientLoop st' outputDir rest

def oppositeOrientation (orientation : Str) : Str :=
  if orientation == "portrait".data then "landscape".data else "portrait".data

def emergencyQueries : List Str :=
  ["nature".data, "sky".data, "water".data, "city".data, "abstract".data]

/-- One scene of the cascade (pexels.ts:233-408): the five tiers in order,
short-circuiting on the first hit. -/
def acquireScene (env : Env) (st : St) (outputDir orientation query : Str) :
    Option (Str × Tag) × St :=
  match libraryLoop st outputDir
      (searchMediaItems env.mediaDB query (some orientation)) with
  | (some r, st1) => (some r, st1)
  | (none, st1) =>
  match cacheLoop st1 outputDir "pexels_".data
      (findCachedClips st1.clips query orientation 5) with
  | (some r, st2) => (some r, st2)
  | (none, st2) =>
  match searchLoop env outputDir orientation orientation 10 (fun _ => query)
      (uniqueQueriesFor query) st2 with
  | (some r, st3) => (some r, st3)
  | (none, st3) =>
  match crossOrientLoop st3 outputDir
      [orientation, oppositeOrientation orientation] with
  | (some r, st4) => (some r, st4)
  | (none, st4) =>
  searchLoop env outputDir "landscape".data orientation 5 (fun q => q)
    emergencyQueries st4

/-- The per-scene failure notice (pexels.ts:406). -/
def noFootageMsg (query : Str) : Str :=
  "No footage found for: \"".data ++ query ++ "\"".data

/-- Result of a cascade run: resolved paths in scene order, failure
notices, provenance tags aligned with `paths`, and the final state. -/
structure CascadeResult where
  paths : List Str
  errors : List Str
  sels : List Tag
  st : St

/-- The scene loop of `searchAndDownloadVideos` (pexels.ts:233-409). -/
def cascadeAux (env : Env) (outputDir orientation : Str) :
    List Str → St → CascadeResult
  | [], st => ⟨[], [], [], st⟩
  | q :: rest, st =>
    match acquireScene env st outputDir orientation q with
    | (some (p, tag), st') =>
      let r := cascadeAux env outputDir orientation rest st'
      ⟨p :: r.paths, r.errors, tag :: r.sels, r.st⟩
    | (none, st') =>
      let r := cascadeAux env outputDir orientation rest st'
      ⟨r.paths, noFootageMsg q :: r.errors, r.sels, r.st⟩

/-- `searchAndDownloadVideos` (pexels.ts:215-419): per-job used-ID sets
start empty; `clipsPerQuery` is accepted and unused, as in the source. -/
def searchAndDownloadVideos (env : Env) (queries : List Str)
    (outputDir : Str) (clipsPerQuery : Nat) (orientation : Str)
    (clips0 : List CachedClip) (files0 : List Str) : CascadeResult :=
  let _ := clipsPerQuery
  cascadeAux env outputDir orientation queries (initSt clips0 files0)

/-- Instrumentation: the per-scene outcome of the same run, each query
paired with its resolution, in scene order. -/
def sceneLog (env : Env) (outputDir orientation : Str) :
    List Str → St → List (Str × Option (Str × Tag))
  | [], _ => []
  | q :: rest, st =>
    match acquireScene env st outputDir orientation q with
    | (res, st') => (q, res) :: sceneLog env outputDir orientation rest st'

/-! ## Narration service (`generateSpeech`) -/

/-- The voiceover cache key (audio module lines 23-26): the MD5 of
`` `${text}_${language}` `` modelled as the preimage itself. -/
def getVoiceoverCacheKey (text language : Str) : Str :=
  text ++ '_' :: language

/-- `generateSpeech` (audio module lines 28-61) against a voiceover cache
mapping keys to audio bytes.  Returns the bytes written to `outputPath`,
whether the external synthesis service was invoked, and the new cache:
the text is truncated to 4096 units, a cache hit copies the cached file,
a miss synthesizes and persists under the key. -/
def generateSpeech (synth : Str → Str → List Nat) (text language : Str)
    (cache : List (Str × List Nat)) : List Nat × Bool × List (Str × List Nat) :=
  let cleanText := text.take 4096
  let cacheKey := getVoiceoverCacheKey cleanText language
  match cache.lookup cacheKey with
  | some bytes => (bytes, false, cache)
  | none =>
    let bytes := synth cleanText language
    (bytes, true, (cacheKey, bytes) :: cache)

/-! ## Caption timing engine (subtitle module) -/

/-- A word with its reveal interval.  The source field `end` is called
`stop` here (`end` is reserved in Lean). -/
structure WordTiming where
  word : Str
  start : ℚ
  stop : ℚ
  deriving DecidableEq

/-- `text.split(/\s+/).filter(w => w.length > 0)`. -/
def wordsOf (text : Str) : List Str :=
  (wsSplit text).filter (fun w => 0 < w.length)

/-- `words.reduce((sum, w) => sum + w.length, 0)`. -/
def charSum (ws : List Str) : ℚ :=
  (((ws.map List.length).sum : ℕ) : ℚ)

/-- The `for` loop of `estimateWordTimings` (subtitle module lines 29-37):
each word gets `(word.length / totalChars) * duration` starting where the
previous word ended. -/
def ewtAux (totalChars duration : ℚ) : ℚ → List Str → List WordTiming
  | _, [] => []
  | t, w :: ws =>
    let wd := ((w.length : ℚ) / totalChars) * duration
    ⟨w, t, t + wd⟩ :: ewtAux totalChars duration (t + wd) ws

/-- `estimateWordTimings` (subtitle module lines 17-40). -/
def estimateWordTimings (text : Str) (startTime duration : ℚ) :
    List WordTiming :=
  let words := wordsOf text
  if words.isEmpty then []
  else ewtAux (charSum words) duration startTime words

/-- `Math.round`. -/
def jsRound (x : ℚ) : ℤ :=
  ⌊x + 1/2⌋

/-- The `i += wordsPerLine` slicing with `wordsPerLine = 3`. -/
def chunks3 : List α → List (List α)
  | [] => []
  | [a] => [[a]]
  | [a, b] => [[a, b]]
  | a :: b :: c :: r => [a, b, c] :: chunks3 r

/-- One `Dialogue:` line of the subtitle track, kept structured: start and
end timestamps, the line's word timings, and the per-word `\k` reveal
durations in centiseconds exactly as rendered into the line text. -/
structure DialogueEvent where
  lineStart : ℚ
  lineStop : ℚ
  words : List WordTiming
  kCs : List ℤ
  deriving DecidableEq

/-- The structured ASS output: the orientation-dependent layout constants
of the `[Script Info]`/`[V4+ Styles]` header and the dialogue events. -/
structure ASSDoc where
  playResX : Nat
  playResY : Nat
  marginV : Nat
  fontSize : Nat
  events : List DialogueEvent
  deriving DecidableEq

/-- Event construction in the line loop (subtitle module lines 101-116):
line start = first word's start, line end = last word's end plus the 0.2s
trailing buffer, `\k` duration = `Math.round((end - start) * 100)`;
empty slices are skipped. -/
def mkDialogueEvent : List WordTiming → Option DialogueEvent
  | [] => none
  | w :: rest =>
    some ⟨w.start, ((w :: rest).getLastD w).stop + 2/10, w :: rest,
          (w :: rest).map (fun wt => jsRound ((wt.stop - wt.start) * 100))⟩

/-- `actualDuration` of `generateASSSubtitles` (subtitle module lines
93-96): the words-per-minute estimate (150 wpm, `60 / 150` per word)
capped at 95% of the target duration. -/
def actualCaptionDuration (totalDuration : ℚ) (words : List Str) : ℚ :=
  min (totalDuration * (95 / 100)) ((words.length : ℚ) * (60 / 150))

/-- `generateASSSubtitles` (subtitle module lines 56-119), with the ASS
text kept structured (`ASSDoc`). -/
def generateASSSubtitles (script : Str) (scenes : List Scene)
    (totalDuration : ℚ) (orientation : Str) : ASSDoc :=
  let isPortrait := orientation == "portrait".data
  let fontSize := 36
  let marginV := if isPortrait then 180 else 80
  let playResX := if isPortrait then 720 else 1280
  let playResY := if isPortrait then 1280 else 720
  let textToUse :=
    if 0 < (trimCL script).length then script
    else joinSpace (scenes.map (·.text))
  if (trimCL textToUse).length = 0 then
    ⟨playResX, playResY, marginV, fontSize, []⟩
  else
    let words := wordsOf textToUse
    if words.isEmpty then ⟨playResX, playResY, marginV, fontSize, []⟩
    else
      let actualDuration := actualCaptionDuration totalDuration words
      let wordTimings := estimateWordTimings textToUse 0 actualDuration
      ⟨playResX, playResY, marginV, fontSize,
       (chunks3 wordTimings).filterMap mkDialogueEvent⟩

/-! ## Duration reconciliation (`generateVideo`, videoGenerator.ts:160-169) -/

/-- The video handed to `mixAudio`: either the rendered file unchanged or
the rendered file stream-looped and capped at the target duration by
`extendVideo` (videoGenerator.ts:517-528). -/
inductive MixInput where
  | rendered
  | extended (cap : ℚ)
  deriving DecidableEq

/-- videoGenerator.ts:160-169: only when a voiceover exists and the
rendered duration falls short of the target by more than 0.5s is the video
extended (to exactly the target duration). -/
def videoForMixing (hasVoiceover : Bool) (videoDuration actualDuration : ℚ) :
    MixInput :=
  if hasVoiceover then
    if videoDuration < actualDuration - 1 / 2 then .extended actualDuration
    else .rendered
  else .rendered

/-! ## Concrete sample data for witnesses and counterexamples -/

def sampleItem : MediaItem :=
  ⟨1, "dog".data, [], "/media/dog.mp4".data, [], "landscape".data⟩

def sampleClip : CachedClip :=
  ⟨1, 101, "public/cache/videos/pexels_101.mp4".data, ["dog".data], 10,
   "landscape".data⟩

/-- An environment with no API key, no media items, and failing oracles. -/
def bareEnv : Env :=
  ⟨false, fun _ _ _ => none, fun _ => false, []⟩

/-! ## Specification predicates and projections -/

/-- Pexels IDs of a selection list, in selection order. -/
def selsPexels (sels : List Tag) : List Nat :=
  sels.filterMap Tag.pexelsId?

/-- Media-library IDs of a selection list, in selection order. -/
def selsMedia (sels : List Tag) : List Nat :=
  sels.filterMap Tag.mediaId?

/-- How one tier attempt relates its result to the entry state: on a miss
the used-ID sets are unchanged; on a hit the selected ID was not in the
corresponding used set and is pushed onto it, the other set unchanged. -/
def SelOk (st : St) : Option (Str × Tag) × St → Prop
  | (none, st') =>
      st'.usedVideoIds = st.usedVideoIds ∧ st'.usedMediaIds = st.usedMediaIds
  | (some (_, .pexels i), st') =>
      i ∉ st.usedVideoIds ∧ st'.usedVideoIds = i :: st.usedVideoIds ∧
      st'.usedMediaIds = st.usedMediaIds
  | (some (_, .media i), st') =>
      i ∉ st.usedMediaIds ∧ st'.usedMediaIds = i :: st.usedMediaIds ∧
      st'.usedVideoIds = st.usedVideoIds

/-! ## Theorems -/

/-- C1: the cross-orientation cache tier queries the durable clip cache
with the EMPTY query; but `findCachedClips` returns `[]` for every
zero-token query, so for every cache contents, orientation and limit the
tier-4 lookup returns no clip and the whole tier resolves nothing —
contradicting the source's own step-4 comment ("Use ANY cached clip
regardless of orientation") and the spec. -/
theorem c1_tier4_empty_query_returns_nothing :
    (∀ (clips : List CachedClip) (orientation : Str) (limit : Nat),
      findCachedClips clips [] orientation limit = []) ∧
    (∀ (st : St) (outputDir orientation : Str),
      crossOrientLoop st outputDir
        [orientation, oppositeOrientation orientation] = (none, st)) := by
  have h : ∀ (cl : List CachedClip) (o : Str) (lim : Nat),
      findCachedClips cl [] o lim = [] := fun _ _ _ => rfl
  refine ⟨h, fun st dir o => ?_⟩
  simp [crossOrientLoop, h, cacheLoop]

/-- C2 counterexample: the query "a b" has zero significant tokens, yet
`searchMediaItems` — one of the term-scored lookups the claim covers —
returns the candidate item rather than an empty list (part_001 lines
264-266 return the whole bounded, orientation-filtered candidate set when
no tokens remain). -/
theorem c2_counterexample :
    significantWords "a b".data = [] ∧
    searchMediaItems [sampleItem] "a b".data (some "landscape".data) =
      [sampleItem] ∧
    searchMediaItems [sampleItem] "a b".data (some "landscape".data) ≠ [] := by
  refine ⟨by decide, by decide, by decide⟩

/-- C2 amended: on a query with zero significant tokens (lowercased,
whitespace tokenized, tokens of length ≤ 2 dropped), `findCachedClips`
returns the empty list for every cache contents, orientation and limit,
while `searchMediaItems` instead returns its entire bounded candidate set
(the first 100 rows, filtered by orientation when one is given); both
embeddings are total functions, so neither lookup can throw. -/
theorem c2_zero_token_lookup_behavior (q : Str)
    (h : significantWords q = []) :
    (∀ (clips : List CachedClip) (orientation : Str) (limit : Nat),
      findCachedClips clips q orientation limit = []) ∧
    (∀ (itemsDB : List MediaItem) (orientation : Str),
      searchMediaItems itemsDB q (some orientation) =
        (itemsDB.take 100).filter (fun it => it.orientation == orientation)) ∧
    (∀ itemsDB : List MediaItem,
      searchMediaItems itemsDB q none = itemsDB.take 100) := by
  refine ⟨fun clips o lim => by simp [findCachedClips, h],
    fun itemsDB o => by simp [searchMediaItems, h],
    fun itemsDB => by simp [searchMediaItems, h]⟩

theorem c2_zero_token_lookup_behavior_witness :
    findCachedClips [sampleClip] "a b".data "landscape".data 5 = [] ∧
    searchMediaItems [sampleItem] "a b".data (some "landscape".data) =
      ([sampleItem].take 100).filter
        (fun it => it.orientation == "landscape".data) ∧
    searchMediaItems [sampleItem] "a b".data none = [sampleItem].take 100 :=
  ⟨(c2_zero_token_lookup_behavior "a b".data (by decide)).1 [sampleClip]
     "landscape".data 5,
   (c2_zero_token_lookup_behavior "a b".data (by decide)).2.1 [sampleItem]
     "landscape".data,
   (c2_zero_token_lookup_behavior "a b".data (by decide)).2.2 [sampleItem]⟩

/-- C4 counterexample: under query "dog" (one significant token) the
media-library scorer gives `sampleItem` (title "dog") a score of 3 — a
single query token contributes 3 points for a title match, exceeding the
claimed at-most-one-point-per-token bound — and the item is returned. -/
theorem c4_counterexample :
    significantWords "dog".data = ["dog".data] ∧
    searchMediaItems [sampleItem] "dog".data (some "landscape".data) =
      [sampleItem] ∧
    ¬ mediaScore (significantWords "dog".data) sampleItem ≤
        (significantWords "dog".data).length := by
  refine ⟨by decide, by decide, by decide⟩

/-- C5: two `generateSpeech` calls with identical (text, language): the
second never invokes the synthesis service and returns exactly the bytes
persisted in the voiceover cache under the key of the truncated text and
language after the first call (which also equal the first call's output). -/
theorem c5_voiceover_cache_hit (synth : Str → Str → List Nat)
    (text language : Str) (cache : List (Str × List Nat)) :
    ((generateSpeech synth text language
        (generateSpeech synth text language cache).2.2).2.1 = false) ∧
    ((generateSpeech synth text language cache).2.2.lookup
        (getVoiceoverCacheKey (text.take 4096) language) =
      some (generateSpeech synth text language
        (generateSpeech synth text language cache).2.2).1) ∧
    ((generateSpeech synth text language
        (generateSpeech synth text language cache).2.2).1 =
      (generateSpeech synth text language cache).1) := by
  cases h : cache.lookup (getVoiceoverCacheKey (text.take 4096) language) with
  | some b => simp [generateSpeech, h]
  | none => simp [generateSpeech, h]

/-- C7 counterexample: with a voiceover present, a rendered duration of
29.8s and a target of 30s — rendered strictly shorter than the target —
the video is passed to mixing unchanged (the source only extends when the
shortfall exceeds 0.5s), contradicting the claim that any shortfall
triggers extension. -/
theorem c7_counterexample :
    videoForMixing true (149 / 5) 30 = MixInput.rendered ∧
    (149 / 5 : ℚ) < 30 := by
  constructor
  · norm_num [videoForMixing]
  · norm_num

/-- C7 amended: with a voiceover, the rendered video is extended (stream-
looped, capped at exactly the target duration) precisely when it is more
than 0.5s shorter than the target; otherwise — including any shortfall of
at most 0.5s — and whenever no voiceover exists, it is passed unchanged. -/
theorem c7_extension_threshold (hasVoiceover : Bool)
    (videoDuration actualDuration : ℚ) :
    (hasVoiceover = true → videoDuration < actualDuration - 1 / 2 →
      videoForMixing hasVoiceover videoDuration actualDuration =
        MixInput.extended actualDuration) ∧
    (hasVoiceover = true → ¬ videoDuration < actualDuration - 1 / 2 →
      videoForMixing hasVoiceover videoDuration actualDuration =
        MixInput.rendered) ∧
    (hasVoiceover = false →
      videoForMixing hasVoiceover videoDuration actualDuration =
        MixInput.rendered) := by
  refine ⟨fun h1 h2 => ?_, fun h1 h2 => ?_, fun h1 => ?_⟩
  · subst h1; unfold videoForMixing; rw [if_pos rfl, if_pos h2]
  · subst h1; unfold videoForMixing; rw [if_pos rfl, if_neg h2]
  · subst h1; unfold videoForMixing; rw [if_neg (by simp)]

theorem c7_extension_threshold_witness :
    videoForMixing true 20 30 = MixInput.extended 30 ∧
    videoForMixing true (149 / 5) 30 = MixInput.rendered ∧
    videoForMixing false 10 30 = MixInput.rendered :=
  ⟨(c7_extension_threshold true 20 30).1 rfl (by norm_num),
   (c7_extension_threshold true (149 / 5) 30).2.1 rfl (by norm_num),
   (c7_extension_threshold false 10 30).2.2 rfl⟩

/-- Projection of `ASSDoc.events` through matching conditionals (helper
for the orientation non-interference proof). -/
theorem ite_events_congr {c : Prop} [Decidable c] {a b a' b' : ASSDoc}
    (ha : a.events = a'.events) (hb : b.events = b'.events) :
    (if c then a else b).events = (if c then a' else b').events := by
  split <;> assumption

/-- Projection of a constant field through a conditional (helper). -/
theorem ite_proj_eq {β : Sort _} (f : ASSDoc → β) {c : Prop} [Decidable c]
    {a b : ASSDoc} {v : β} (ha : f a = v) (hb : f b = v) :
    f (if c then a else b) = v := by
  split <;> assumption

/-- C9: for every script, scene list and target duration the subtitle
documents generated for landscape and portrait have identical dialogue
events (same line start/end times and per-word reveal durations);
orientation only changes the layout constants, which take the documented
values (canvas 1280x720 vs 720x1280, vertical margin 80 vs 180, font size
36 in both). -/
theorem c9_orientation_only_layout (script : Str) (scenes : List Scene)
    (totalDuration : ℚ) :
    ((generateASSSubtitles script scenes totalDuration "landscape".data).events =
      (generateASSSubtitles script scenes totalDuration "portrait".data).events) ∧
    (generateASSSubtitles script scenes totalDuration "landscape".data).playResX = 1280 ∧
    (generateASSSubtitles script scenes totalDuration "landscape".data).playResY = 720 ∧
    (generateASSSubtitles script scenes totalDuration "landscape".data).marginV = 80 ∧
    (generateASSSubtitles script scenes totalDuration "landscape".data).fontSize = 36 ∧
    (generateASSSubtitles script scenes totalDuration "portrait".data).playResX = 720 ∧
    (generateASSSubtitles script scenes totalDuration "portrait".data).playResY = 1280 ∧
    (generateASSSubtitles script scenes totalDuration "portrait".data).marginV = 180 ∧
    (generateASSSubtitles script scenes totalDuration "portrait".data).fontSize = 36 := by
  have hl : (("landscape".data : Str) == "portrait".data) = false := by decide
  have hp : (("portrait".data : Str) == "portrait".data) = true := by decide
  unfold generateASSSubtitles
  rw [hl, hp]
  refine ⟨ite_events_congr rfl (ite_events_congr rfl rfl),
    ite_proj_eq _ rfl (ite_proj_eq _ rfl rfl),
    ite_proj_eq _ rfl (ite_proj_eq _ rfl rfl),
    ite_proj_eq _ rfl (ite_proj_eq _ rfl rfl),
    ite_proj_eq _ rfl (ite_proj_eq _ rfl rfl),
    ite_proj_eq _ rfl (ite_proj_eq _ rfl rfl),
    ite_proj_eq _ rfl (ite_proj_eq _ rfl rfl),
    ite_proj_eq _ rfl (ite_proj_eq _ rfl rfl),
    ite_proj_eq _ rfl (ite_proj_eq _ rfl rfl)⟩

/-- Membership through `insertByScoreDesc` (helper). -/
theorem mem_insertByScoreDesc {α : Type _} {x y : α × Nat}
    {l : List (α × Nat)} (h : y ∈ insertByScoreDesc x l) : y = x ∨ y ∈ l := by
  induction l with
  | nil => simpa [insertByScoreDesc] using h
  | cons z zs ih =>
    rw [insertByScoreDesc] at h
    split at h
    · rcases List.mem_cons.mp h with h1 | h1
      · exact Or.inr (h1 ▸ List.mem_cons_self z zs)
      · rcases ih h1 with h2 | h2
        · exact Or.inl h2
        · exact Or.inr (List.mem_cons_of_mem z h2)
    · rcases List.mem_cons.mp h with h1 | h1
      · exact Or.inl h1
      · exact Or.inr h1

/-- Membership through the stable descending sort (helper). -/
theorem mem_sortByScoreDesc {α : Type _} {y : α × Nat} {l : List (α × Nat)}
    (h : y ∈ sortByScoreDesc l) : y ∈ l := by
  induction l with
  | nil => simp [sortByScoreDesc] at h
  | cons z zs ih =>
    rw [sortByScoreDesc] at h
    rcases mem_insertByScoreDesc h with h1 | h1
    · exact h1 ▸ List.mem_cons_self z zs
    · exact List.mem_cons_of_mem z (ih h1)

/-- One scoring step adds at most 7 (helper). -/
theorem mediaScoreStep_le (t d : Str) (tags : List Str) (a : Nat) (w : Str) :
    mediaScoreStep t d tags a w ≤ a + 7 := by
  simp only [mediaScoreStep]
  split <;> split <;> split <;> omega

/-- The media scorer is bounded by 7 points per significant token (helper). -/
theorem mediaScore_le_aux (t d : Str) (tags : List Str) :
    ∀ (ws : List Str) (a : Nat),
      ws.foldl (mediaScoreStep t d tags) a ≤ a + 7 * ws.length := by
  intro ws
  induction ws with
  | nil => intro a; simp
  | cons w ws ih =>
    intro a
    rw [List.foldl_cons]
    have h1 := ih (mediaScoreStep t d tags a w)
    have h2 := mediaScoreStep_le t d tags a w
    simp only [List.length_cons]
    omega

/-- Every clip returned by `findCachedClips` has positive score (helper). -/
theorem pos_clipScore_of_mem {clips : List CachedClip} {q orientation : Str}
    {lim : Nat} {c : CachedClip} (hc : c ∈ findCachedClips clips q orientation lim) :
    0 < clipScore (significantWords q) c := by
  simp only [findCachedClips] at hc
  split at hc
  · simp at hc
  · obtain ⟨p, hp, hpc⟩ := List.mem_map.mp hc
    have hp1 := mem_sortByScoreDesc (List.mem_of_mem_take hp)
    have hp2 := List.mem_filter.mp hp1
    obtain ⟨c0, _, hc0⟩ := List.mem_map.mp hp2.1
    have hpos := of_decide_eq_true hp2.2
    rw [← hc0] at hpos hpc
    simpa [← hpc] using hpos

/-- Every item returned by `searchMediaItems` on a token-bearing query has
positive score (helper). -/
theorem pos_mediaScore_of_mem {itemsDB : List MediaItem} {q : Str}
    {o : Str} {it : MediaItem}
    (hq : significantWords q ≠ [])
    (hi : it ∈ searchMediaItems itemsDB q (some o)) :
    0 < mediaScore (significantWords q) it := by
  simp only [searchMediaItems] at hi
  split at hi
  · exact absurd (List.length_eq_zero.mp (by assumption)) hq
  · obtain ⟨p, hp, hpc⟩ := List.mem_map.mp hi
    have hp1 := mem_sortByScoreDesc hp
    have hp2 := List.mem_filter.mp hp1
    obtain ⟨i0, _, hi0⟩ := List.mem_map.mp hp2.1
    have hpos := of_decide_eq_true hp2.2
    rw [← hi0] at hpos hpc
    simpa [← hpc] using hpos

/-- C4 amended: in the clip cache (`findCachedClips`) a candidate's score
is at most the number of significant query tokens (one point per token);
in the media library (`searchMediaItems`) a token can contribute up to 7
points (3 title + 2 description + 2 tags), so scores are bounded by 7
tokens' worth; in both lookups every returned candidate has positive
score (zero-score candidates are discarded). -/
theorem c4_score_bounds (ws : List Str) (clip : CachedClip) (item : MediaItem)
    (q orientation : Str) (lim : Nat)
    (clipsDB : List CachedClip) (itemsDB : List MediaItem)
    (c : CachedClip) (it : MediaItem)
    (hq : significantWords q ≠ [])
    (hc : c ∈ findCachedClips clipsDB q orientation lim)
    (hi : it ∈ searchMediaItems itemsDB q (some orientation)) :
    clipScore ws clip ≤ ws.length ∧
    mediaScore ws item ≤ 7 * ws.length ∧
    0 < clipScore (significantWords q) c ∧
    0 < mediaScore (significantWords q) it := by
  refine ⟨List.length_filter_le _ _, ?_, pos_clipScore_of_mem hc,
    pos_mediaScore_of_mem hq hi⟩
  have h := mediaScore_le_aux (toLowerStr item.title)
    (toLowerStr item.description) item.tags ws 0
  simpa [mediaScore] using h

theorem c4_score_bounds_witness :
    clipScore ["dog".data] sampleClip ≤ 1 ∧
    mediaScore ["dog".data] sampleItem ≤ 7 * 1 ∧
    0 < clipScore (significantWords "dog".data) sampleClip ∧
    0 < mediaScore (significantWords "dog".data) sampleItem := by
  have h := c4_score_bounds ["dog".data] sampleClip sampleItem
    "dog".data "landscape".data 5 [sampleClip] [sampleItem]
    sampleClip sampleItem (by decide) (by decide) (by decide)
  simpa using h

/-- The first timing of the word loop starts at the running clock
(helper). -/
theorem ewtAux_head_start (tc d : ℚ) (ws : List Str) (t : ℚ) (x : WordTiming)
    (h : (ewtAux tc d t ws).head? = some x) : x.start = t := by
  cases ws with
  | nil => simp [ewtAux] at h
  | cons w r =>
    simp only [ewtAux, List.head?_cons, Option.some.injEq] at h
    rw [← h]

/-- Word timings form an exact chain: each word starts where the previous
ended, starts are non-decreasing, each interval is forward and has length
proportional to the word's character count (helper). -/
theorem ewtAux_props (tc d : ℚ) (htc : 0 ≤ tc) (hd : 0 ≤ d) :
    ∀ (ws : List Str) (t : ℚ),
      List.Chain' (fun a b => a.stop = b.start ∧ a.start ≤ b.start)
        (ewtAux tc d t ws) ∧
      ∀ x ∈ ewtAux tc d t ws,
        x.start ≤ x.stop ∧
        x.stop - x.start = ((x.word.length : ℚ) / tc) * d := by
  intro ws
  induction ws with
  | nil => intro t; simp [ewtAux]
  | cons w r ih =>
    intro t
    have hwd : 0 ≤ ((w.length : ℚ) / tc) * d :=
      mul_nonneg (div_nonneg (Nat.cast_nonneg _) htc) hd
    simp only [ewtAux]
    constructor
    · apply List.chain'_cons'.mpr
      refine ⟨?_, (ih _).1⟩
      intro y hy
      have hys := ewtAux_head_start tc d r _ y (Option.mem_def.mp hy)
      refine ⟨hys.symm, ?_⟩
      rw [hys]
      exact le_add_of_nonneg_right hwd
    · intro x hx
      rcases List.mem_cons.mp hx with h1 | h1
      · subst h1
        refine ⟨le_add_of_nonneg_right hwd, ?_⟩
        ring
      · exact (ih _).2 x h1

/-- A chain restricted to any 3-slice of the list is still a chain
(helper). -/
theorem chunks3_chain' {α : Type _} {R : α → α → Prop} :
    ∀ l : List α, List.Chain' R l → ∀ lw ∈ chunks3 l, List.Chain' R lw
  | [], _, lw, hlw => by simp [chunks3] at hlw
  | [a], h, lw, hlw => by
      simp only [chunks3, List.mem_singleton] at hlw
      subst hlw; exact h
  | [a, b], h, lw, hlw => by
      simp only [chunks3, List.mem_singleton] at hlw
      subst hlw; exact h
  | a :: b :: c :: r, h, lw, hlw => by
      simp only [chunks3, List.mem_cons] at hlw
      rcases hlw with h1 | h1
      · subst h1
        rcases List.chain'_cons.mp h with ⟨rab, h2⟩
        rcases List.chain'_cons.mp h2 with ⟨rbc, _⟩
        exact List.chain'_cons.mpr ⟨rab,
          List.chain'_cons.mpr ⟨rbc, List.chain'_singleton c⟩⟩
      · have h3 : List.Chain' R r :=
          ((List.chain'_cons.mp (List.chain'_cons.mp h).2).2).tail
        exact chunks3_chain' r h3 lw h1

/-- Elements of a 3-slice are elements of the list (helper). -/
theorem chunks3_mem {α : Type _} :
    ∀ (l : List α) (lw : List α), lw ∈ chunks3 l → ∀ x ∈ lw, x ∈ l
  | [], lw, hlw, x, hx => by simp [chunks3] at hlw
  | [a], lw, hlw, x, hx => by
      simp only [chunks3, List.mem_singleton] at hlw
      subst hlw; exact hx
  | [a, b], lw, hlw, x, hx => by
      simp only [chunks3, List.mem_singleton] at hlw
      subst hlw; exact hx
  | a :: b :: c :: r, lw, hlw, x, hx => by
      simp only [chunks3, List.mem_cons] at hlw
      rcases hlw with h1 | h1
      · subst h1
        rcases List.mem_cons.mp hx with h2 | h2
        · exact h2 ▸ List.mem_cons_self _ _
        rcases List.mem_cons.mp h2 with h3 | h3
        · exact List.mem_cons_of_mem _ (h3 ▸ List.mem_cons_self _ _)
        rcases List.mem_cons.mp h3 with h4 | h4
        · exact List.mem_cons_of_mem _ (List.mem_cons_of_mem _
            (h4 ▸ List.mem_cons_self _ _))
        · simp at h4
      · exact List.mem_cons_of_mem _ (List.mem_cons_of_mem _
          (List.mem_cons_of_mem _ (chunks3_mem r lw h1 x hx)))

/-- C6: with non-empty narration text and a positive target duration, the
estimated spoken duration used for word timing never exceeds 0.95 of the
target, and within each caption line each word starts exactly where the
previous one ends, start times are non-decreasing, and each word's screen
time is proportional to its character count (length / total characters of
the narration, times the capped duration). -/
theorem c6_caption_word_timing (script : Str) (scenes : List Scene) (T : ℚ)
    (orientation : Str)
    (h1 : 0 < (trimCL script).length)
    (h2 : (wordsOf script).isEmpty = false)
    (hT : 0 < T) :
    actualCaptionDuration T (wordsOf script) ≤ 95 / 100 * T ∧
    ∀ e ∈ (generateASSSubtitles script scenes T orientation).events,
      List.Chain' (fun a b => a.stop = b.start ∧ a.start ≤ b.start) e.words ∧
      ∀ w ∈ e.words, w.start ≤ w.stop ∧
        w.stop - w.start =
          ((w.word.length : ℚ) / charSum (wordsOf script)) *
            actualCaptionDuration T (wordsOf script) := by
  have hcap : actualCaptionDuration T (wordsOf script) ≤ 95 / 100 * T := by
    unfold actualCaptionDuration
    have := min_le_left (T * (95 / 100))
      (((wordsOf script).length : ℚ) * (60 / 150))
    linarith
  refine ⟨hcap, ?_⟩
  intro e he
  simp only [generateASSSubtitles, if_pos h1] at he
  have h1' : ¬ (trimCL script).length = 0 := by omega
  rw [if_neg h1'] at he
  rw [if_neg (by simp [h2])] at he
  obtain ⟨lw, hlw, hmk⟩ := List.mem_filterMap.mp he
  have hd : 0 ≤ actualCaptionDuration T (wordsOf script) := by
    unfold actualCaptionDuration
    refine le_min (mul_nonneg hT.le (by norm_num))
      (mul_nonneg (Nat.cast_nonneg _) (by norm_num))
  have htc : (0 : ℚ) ≤ charSum (wordsOf script) := Nat.cast_nonneg _
  have hewt : estimateWordTimings script 0
      (actualCaptionDuration T (wordsOf script)) =
      ewtAux (charSum (wordsOf script))
        (actualCaptionDuration T (wordsOf script)) 0 (wordsOf script) := by
    simp [estimateWordTimings, h2]
  have hprops := ewtAux_props (charSum (wordsOf script))
    (actualCaptionDuration T (wordsOf script)) htc hd (wordsOf script) 0
  rw [← hewt] at hprops
  have hchain := chunks3_chain' _ hprops.1 _ hlw
  have hmem := fun x hx => hprops.2 x (chunks3_mem _ _ hlw x hx)
  cases lw with
  | nil => simp [mkDialogueEvent] at hmk
  | cons w0 rest =>
    simp only [mkDialogueEvent, Option.some.injEq] at hmk
    constructor
    · rw [← hmk]
      exact hchain
    · intro w hw
      rw [← hmk] at hw
      exact hmem w hw

theorem c6_caption_word_timing_witness :
    actualCaptionDuration 10 (wordsOf "hello world here".data) ≤
      95 / 100 * 10 ∧
    ∀ e ∈ (generateASSSubtitles "hello world here".data [] 10
        "landscape".data).events,
      List.Chain' (fun a b => a.stop = b.start ∧ a.start ≤ b.start) e.words ∧
      ∀ w ∈ e.words, w.start ≤ w.stop ∧
        w.stop - w.start =
          ((w.word.length : ℚ) / charSum (wordsOf "hello world here".data)) *
            actualCaptionDuration 10 (wordsOf "hello world here".data) :=
  c6_caption_word_timing "hello world here".data [] 10 "landscape".data
    (by decide) (by decide) (by norm_num)

/-- `downloadFresh` never touches the per-job used-ID sets (helper). -/
theorem downloadFresh_used (env : Env) (st : St) (video : Video)
    (outputDir searchTerm orientation : Str) :
    ((downloadFresh env st video outputDir searchTerm orientation).2).usedVideoIds
        = st.usedVideoIds ∧
    ((downloadFresh env st video outputDir searchTerm orientation).2).usedMediaIds
        = st.usedMediaIds := by
  simp only [downloadFresh]
  repeat' split
  all_goals exact ⟨rfl, rfl⟩

/-- `downloadVideo` never touches the per-job used-ID sets (helper). -/
theorem downloadVideo_used (env : Env) (st : St) (video : Video)
    (outputDir searchTerm orientation : Str) :
    ((downloadVideo env st video outputDir searchTerm orientation).2).usedVideoIds
        = st.usedVideoIds ∧
    ((downloadVideo env st video outputDir searchTerm orientation).2).usedMediaIds
        = st.usedMediaIds := by
  simp only [downloadVideo]
  repeat' split
  all_goals first
    | exact ⟨rfl, rfl⟩
    | apply downloadFresh_used

/-- `SelOk` only depends on the used-ID sets of the entry state (helper). -/
theorem selOk_congr {st st₂ : St} {r : Option (Str × Tag) × St}
    (hv : st.usedVideoIds = st₂.usedVideoIds)
    (hm : st.usedMediaIds = st₂.usedMediaIds)
    (h : SelOk st₂ r) : SelOk st r := by
  obtain ⟨opt, st'⟩ := r
  match opt with
  | none => simpa [SelOk, hv, hm] using h
  | some (p, Tag.pexels i) => simpa [SelOk, hv, hm] using h
  | some (p, Tag.media i) => simpa [SelOk, hv, hm] using h

/-- Tier 1 consults and updates only the media used-ID set (helper). -/
theorem libraryLoop_selOk (outputDir : Str) :
    ∀ (items : List MediaItem) (st : St),
      SelOk st (libraryLoop st outputDir items) := by
  intro items
  induction items with
  | nil => intro st; simp [libraryLoop, SelOk]
  | cons item rest ih =>
    intro st
    simp only [libraryLoop]
    split
    · exact ih st
    · rename_i hused
      repeat' split
      all_goals first
        | exact ih st
        | exact ⟨by simpa using hused, rfl, rfl⟩

/-- The cache-hit loop consults and updates only the Pexels used-ID set
(helper). -/
theorem cacheLoop_selOk (outputDir tag : Str) :
    ∀ (cl : List CachedClip) (st : St),
      SelOk st (cacheLoop st outputDir tag cl) := by
  intro cl
  induction cl with
  | nil => intro st; simp [cacheLoop, SelOk]
  | cons cached rest ih =>
    intro st
    simp only [cacheLoop]
    split
    · exact ih st
    · rename_i hused
      repeat' split
      all_goals first
        | exact ih st
        | exact ⟨by simpa using hused, rfl, rfl⟩

/-- The download loop consults and updates only the Pexels used-ID set
(helper). -/
theorem tryDownloadList_selOk (env : Env) (outputDir searchTerm orientation : Str) :
    ∀ (videos : List Video) (st : St),
      SelOk st (tryDownloadList env st outputDir searchTerm orientation videos) := by
  intro videos
  induction videos with
  | nil => intro st; simp [tryDownloadList, SelOk]
  | cons v rest ih =>
    intro st
    simp only [tryDownloadList]
    split
    · exact ih st
    · rename_i hused
      split
      · rename_i p st' hdl
        have hu := downloadVideo_used env st v outputDir searchTerm orientation
        rw [hdl] at hu
        simp only [SelOk]
        refine ⟨by simpa using hused, ?_, ?_⟩
        · simpa using congrArg (v.id :: ·) hu.1
        · simpa using hu.2
      · rename_i st' hdl
        have hu := downloadVideo_used env st v outputDir searchTerm orientation
        rw [hdl] at hu
        exact selOk_congr (show st.usedVideoIds = st'.usedVideoIds from hu.1.symm)
          (show st.usedMediaIds = st'.usedMediaIds from hu.2.symm) (ih st')

/-- The search-query loop consults and updates only the Pexels used-ID set
(helper). -/
theorem searchLoop_selOk (env : Env) (outputDir searchOrient dlOrient : Str)
    (perPage : Nat) (termOf : Str → Str) :
    ∀ (qs : List Str) (st : St),
      SelOk st (searchLoop env outputDir searchOrient dlOrient perPage termOf qs st) := by
  intro qs
  induction qs with
  | nil => intro st; simp [searchLoop, SelOk]
  | cons q rest ih =>
    intro st
    simp only [searchLoop]
    split
    · exact ih st
    · split
      · exact selOk_congr rfl rfl (ih _)
      · rename_i videos hresp
        split
        · rename_i r st' htdl
          have h := tryDownloadList_selOk env outputDir (termOf q) dlOrient
            videos { st with netCalls := st.netCalls + 1 }
          rw [htdl] at h
          exact selOk_congr rfl rfl h
        · rename_i st' htdl
          have h := tryDownloadList_selOk env outputDir (termOf q) dlOrient
            videos { st with netCalls := st.netCalls + 1 }
          rw [htdl] at h
          simp only [SelOk] at h
          exact selOk_congr (show st.usedVideoIds = st'.usedVideoIds from h.1.symm)
            (show st.usedMediaIds = st'.usedMediaIds from h.2.symm) (ih st')

/-- The cross-orientation loop consults and updates only the Pexels
used-ID set (helper). -/
theorem crossOrientLoop_selOk (outputDir : Str) :
    ∀ (os : List Str) (st : St), SelOk st (crossOrientLoop st outputDir os) := by
  intro os
  induction os with
  | nil => intro st; simp [crossOrientLoop, SelOk]
  | cons o rest ih =>
    intro st
    rw [crossOrientLoop]
    split
    · rename_i r st' hcl
      have h := cacheLoop_selOk outputDir "fallback_".data
        (findCachedClips st.clips [] o 20) st
      rw [hcl] at h
      exact h
    · rename_i st' hcl
      have h := cacheLoop_selOk outputDir "fallback_".data
        (findCachedClips st.clips [] o 20) st
      rw [hcl] at h
      simp only [SelOk] at h
      exact selOk_congr (show st.usedVideoIds = st'.usedVideoIds from h.1.symm)
        (show st.usedMediaIds = st'.usedMediaIds from h.2.symm) (ih st')

/-- One scene of the cascade consults the used-ID set of each tier before
selecting, and pushes exactly the selected ID (helper). -/
theorem acquireScene_selOk (env : Env) (st : St)
    (outputDir orientation query : Str) :
    SelOk st (acquireScene env st outputDir orientation query) := by
  rw [acquireScene]
  split
  · rename_i r st1 h1
    have h := libraryLoop_selOk outputDir
      (searchMediaItems env.mediaDB query (some orientation)) st
    rw [h1] at h
    exact h
  · rename_i st1 h1
    have hl := libraryLoop_selOk outputDir
      (searchMediaItems env.mediaDB query (some orientation)) st
    rw [h1] at hl
    simp only [SelOk] at hl
    have t1 : SelOk st1 (acquireScene env st outputDir orientation query) →
        SelOk st (acquireScene env st outputDir orientation query) :=
      selOk_congr hl.1.symm hl.2.symm
    split
    · rename_i r st2 h2
      have h := cacheLoop_selOk outputDir "pexels_".data
        (findCachedClips st1.clips query orientation 5) st1
      rw [h2] at h
      exact selOk_congr hl.1.symm hl.2.symm h
    · rename_i st2 h2
      have hc := cacheLoop_selOk outputDir "pexels_".data
        (findCachedClips st1.clips query orientation 5) st1
      rw [h2] at hc
      simp only [SelOk] at hc
      have hv2 : st2.usedVideoIds = st.usedVideoIds := hc.1.trans hl.1
      have hm2 : st2.usedMediaIds = st.usedMediaIds := hc.2.trans hl.2
      split
      · rename_i r st3 h3
        have h := searchLoop_selOk env outputDir orientation orientation 10
          (fun _ => query) (uniqueQueriesFor query) st2
        rw [h3] at h
        exact selOk_congr hv2.symm hm2.symm h
      · rename_i st3 h3
        have hs := searchLoop_selOk env outputDir orientation orientation 10
          (fun _ => query) (uniqueQueriesFor query) st2
        rw [h3] at hs
        simp only [SelOk] at hs
        have hv3 : st3.usedVideoIds = st.usedVideoIds := hs.1.trans hv2
        have hm3 : st3.usedMediaIds = st.usedMediaIds := hs.2.trans hm2
        split
        · rename_i r st4 h4
          have h := crossOrientLoop_selOk outputDir
            [orientation, oppositeOrientation orientation] st3
          rw [h4] at h
          exact selOk_congr hv3.symm hm3.symm h
        · rename_i st4 h4
          have hx := crossOrientLoop_selOk outputDir
            [orientation, oppositeOrientation orientation] st3
          rw [h4] at hx
          simp only [SelOk] at hx
          have hv4 : st4.usedVideoIds = st.usedVideoIds := hx.1.trans hv3
          have hm4 : st4.usedMediaIds = st.usedMediaIds := hx.2.trans hm3
          have h := searchLoop_selOk env outputDir "landscape".data orientation 5
            (fun q => q) emergencyQueries st4
          exact selOk_congr hv4.symm hm4.symm h

/-- IDs selected by the remaining scenes are fresh relative to the entry
used-ID sets (helper). -/
theorem cascadeAux_fresh (env : Env) (outputDir orientation : Str) :
    ∀ (qs : List Str) (st : St),
      (∀ i ∈ selsPexels (cascadeAux env outputDir orientation qs st).sels,
        i ∉ st.usedVideoIds) ∧
      (∀ i ∈ selsMedia (cascadeAux env outputDir orientation qs st).sels,
        i ∉ st.usedMediaIds) := by
  intro qs
  induction qs with
  | nil => intro st; simp [cascadeAux, selsPexels, selsMedia]
  | cons q rest ih =>
    intro st
    rcases hacq : acquireScene env st outputDir orientation q with ⟨res, st'⟩
    have hsel := acquireScene_selOk env st outputDir orientation q
    rw [hacq] at hsel
    rw [cascadeAux, hacq]
    match res with
    | none =>
      simp only [SelOk] at hsel
      constructor
      · intro j hj
        have hf := (ih st').1 j hj
        rw [hsel.1] at hf
        exact hf
      · intro j hj
        have hf := (ih st').2 j hj
        rw [hsel.2] at hf
        exact hf
    | some (p, Tag.pexels i) =>
      simp only [SelOk] at hsel
      constructor
      · intro j hj
        simp only [selsPexels, List.filterMap_cons, Tag.pexelsId?] at hj
        rcases List.mem_cons.mp hj with h1 | h1
        · exact h1 ▸ hsel.1
        · have hf := (ih st').1 j h1
          rw [hsel.2.1] at hf
          exact fun hmem => hf (List.mem_cons_of_mem _ hmem)
      · intro j hj
        simp only [selsMedia, List.filterMap_cons, Tag.mediaId?] at hj
        have hf := (ih st').2 j hj
        rw [hsel.2.2] at hf
        exact hf
    | some (p, Tag.media i) =>
      simp only [SelOk] at hsel
      constructor
      · intro j hj
        simp only [selsPexels, List.filterMap_cons, Tag.pexelsId?] at hj
        have hf := (ih st').1 j hj
        rw [hsel.2.2] at hf
        exact hf
      · intro j hj
        simp only [selsMedia, List.filterMap_cons, Tag.mediaId?] at hj
        rcases List.mem_cons.mp hj with h1 | h1
        · exact h1 ▸ hsel.1
        · have hf := (ih st').2 j h1
          rw [hsel.2.1] at hf
          exact fun hmem => hf (List.mem_cons_of_mem _ hmem)

/-- The selected Pexels IDs and the selected media IDs of a cascade run
are each duplicate-free (helper). -/
theorem cascadeAux_nodup (env : Env) (outputDir orientation : Str) :
    ∀ (qs : List Str) (st : St),
      (selsPexels (cascadeAux env outputDir orientation qs st).sels).Nodup ∧
      (selsMedia (cascadeAux env outputDir orientation qs st).sels).Nodup := by
  intro qs
  induction qs with
  | nil => intro st; simp [cascadeAux, selsPexels, selsMedia]
  | cons q rest ih =>
    intro st
    rcases hacq : acquireScene env st outputDir orientation q with ⟨res, st'⟩
    have hsel := acquireScene_selOk env st outputDir orientation q
    rw [hacq] at hsel
    rw [cascadeAux, hacq]
    match res with
    | none => exact ih st'
    | some (p, Tag.pexels i) =>
      simp only [SelOk] at hsel
      refine ⟨?_, ?_⟩
      · simp only [selsPexels, List.filterMap_cons, Tag.pexelsId?]
        refine List.nodup_cons.mpr ⟨?_, (ih st').1⟩
        intro hmem
        have hf := (cascadeAux_fresh env outputDir orientation rest st').1 i hmem
        rw [hsel.2.1] at hf
        exact hf (List.mem_cons_self _ _)
      · simpa [selsMedia, List.filterMap_cons, Tag.mediaId?] using (ih st').2
    | some (p, Tag.media i) =>
      simp only [SelOk] at hsel
      refine ⟨?_, ?_⟩
      · simpa [selsPexels, List.filterMap_cons, Tag.pexelsId?] using (ih st').1
      · simp only [selsMedia, List.filterMap_cons, Tag.mediaId?]
        refine List.nodup_cons.mpr ⟨?_, (ih st').2⟩
        intro hmem
        have hf := (cascadeAux_fresh env outputDir orientation rest st').2 i hmem
        rw [hsel.2.1] at hf
        exact hf (List.mem_cons_self _ _)

/-- Path/error/selection counting: each scene contributes exactly one path
or one error, and selections align one-to-one with paths (helper). -/
theorem cascadeAux_count (env : Env) (outputDir orientation : Str) :
    ∀ (qs : List Str) (st : St),
      (cascadeAux env outputDir orientation qs st).paths.length +
        (cascadeAux env outputDir orientation qs st).errors.length = qs.length ∧
      (cascadeAux env outputDir orientation qs st).sels.length =
        (cascadeAux env outputDir orientation qs st).paths.length := by
  intro qs
  induction qs with
  | nil => intro st; simp [cascadeAux]
  | cons q rest ih =>
    intro st
    rcases hacq : acquireScene env st outputDir orientation q with ⟨res, st'⟩
    rw [cascadeAux, hacq]
    match res with
    | none =>
      have := ih st'
      simp only [List.length_cons]
      omega
    | some (p, tag) =>
      have := ih st'
      simp only [List.length_cons]
      omega

/-- The cascade's outputs are the order-preserving projections of the
per-scene outcome log (helper). -/
theorem cascadeAux_log (env : Env) (outputDir orientation : Str) :
    ∀ (qs : List Str) (st : St),
      (cascadeAux env outputDir orientation qs st).paths =
        (sceneLog env outputDir orientation qs st).filterMap
          (fun x => x.2.map Prod.fst) ∧
      (cascadeAux env outputDir orientation qs st).errors =
        (sceneLog env outputDir orientation qs st).filterMap
          (fun x => match x.2 with
            | none => some (noFootageMsg x.1)
            | some _ => none) ∧
      (sceneLog env outputDir orientation qs st).length = qs.length := by
  intro qs
  induction qs with
  | nil => intro st; simp [cascadeAux, sceneLog]
  | cons q rest ih =>
    intro st
    rcases hacq : acquireScene env st outputDir orientation q with ⟨res, st'⟩
    rw [cascadeAux, sceneLog, hacq]
    match res with
    | none =>
      have := ih st'
      simp only [List.filterMap_cons, List.length_cons]
      exact ⟨this.1, by rw [this.2.1], by rw [this.2.2]⟩
    | some (p, tag) =>
      have := ih st'
      simp only [List.filterMap_cons, List.length_cons, Option.map_some']
      exact ⟨by rw [this.1], this.2.1, by rw [this.2.2]⟩

/-- C3: in one job (one `searchAndDownloadVideos` call over an ordered
scene-query list), the provenance tags aligned with the resolved paths
never repeat a Pexels provider ID nor a media-library item ID: every tier
checks the per-job used-ID set before selecting and pushes the selected ID
onto it.  The tag list is in one-to-one correspondence with the path list. -/
theorem c3_no_duplicate_ids (env : Env) (queries : List Str)
    (outputDir : Str) (clipsPerQuery : Nat) (orientation : Str)
    (clips0 : List CachedClip) (files0 : List Str) :
    (selsPexels (searchAndDownloadVideos env queries outputDir clipsPerQuery
        orientation clips0 files0).sels).Nodup ∧
    (selsMedia (searchAndDownloadVideos env queries outputDir clipsPerQuery
        orientation clips0 files0).sels).Nodup ∧
    (searchAndDownloadVideos env queries outputDir clipsPerQuery
        orientation clips0 files0).sels.length =
      (searchAndDownloadVideos env queries outputDir clipsPerQuery
        orientation clips0 files0).paths.length := by
  unfold searchAndDownloadVideos
  exact ⟨(cascadeAux_nodup env outputDir orientation queries
      (initSt clips0 files0)).1,
    (cascadeAux_nodup env outputDir orientation queries
      (initSt clips0 files0)).2,
    (cascadeAux_count env outputDir orientation queries
      (initSt clips0 files0)).2⟩

/-- C10: every input scene query contributes exactly one element to
exactly one of the two outputs — the resolved path count plus the failure
notice count equals the query count — and the path and error lists are the
order-preserving projections of the per-scene outcome log (so paths appear
in scene order). -/
theorem c10_one_outcome_per_scene (env : Env) (queries : List Str)
    (outputDir : Str) (clipsPerQuery : Nat) (orientation : Str)
    (clips0 : List CachedClip) (files0 : List Str) :
    (searchAndDownloadVideos env queries outputDir clipsPerQuery
        orientation clips0 files0).paths.length +
      (searchAndDownloadVideos env queries outputDir clipsPerQuery
        orientation clips0 files0).errors.length = queries.length ∧
    (searchAndDownloadVideos env queries outputDir clipsPerQuery
        orientation clips0 files0).paths =
      (sceneLog env outputDir orientation queries
        (initSt clips0 files0)).filterMap (fun x => x.2.map Prod.fst) ∧
    (searchAndDownloadVideos env queries outputDir clipsPerQuery
        orientation clips0 files0).errors =
      (sceneLog env outputDir orientation queries
        (initSt clips0 files0)).filterMap
        (fun x => match x.2 with
          | none => some (noFootageMsg x.1)
          | some _ => none) ∧
    (sceneLog env outputDir orientation queries
      (initSt clips0 files0)).length = queries.length := by
  unfold searchAndDownloadVideos
  refine ⟨(cascadeAux_count env outputDir orientation queries
      (initSt clips0 files0)).1, ?_, ?_, ?_⟩
  · exact (cascadeAux_log env outputDir orientation queries
      (initSt clips0 files0)).1
  · exact (cascadeAux_log env outputDir orientation queries
      (initSt clips0 files0)).2.1
  · exact (cascadeAux_log env outputDir orientation queries
      (initSt clips0 files0)).2.2

/-- Tier 1 performs no network call (helper). -/
theorem libraryLoop_net (outputDir : Str) :
    ∀ (items : List MediaItem) (st : St),
      ((libraryLoop st outputDir items).2).netCalls = st.netCalls := by
  intro items
  induction items with
  | nil => intro st; simp [libraryLoop]
  | cons item rest ih =>
    intro st
    simp only [libraryLoop]
    repeat' split
    all_goals first | exact ih st | rfl

/-- The cache-hit loop performs no network call (helper). -/
theorem cacheLoop_net (outputDir tag : Str) :
    ∀ (cl : List CachedClip) (st : St),
      ((cacheLoop st outputDir tag cl).2).netCalls = st.netCalls := by
  intro cl
  induction cl with
  | nil => intro st; simp [cacheLoop]
  | cons cached rest ih =>
    intro st
    simp only [cacheLoop]
    repeat' split
    all_goals first | exact ih st | rfl

/-- With the API key absent, the search loop does nothing at all: every
query's `searchVideos` throws before any fetch and the catch moves on
(helper). -/
theorem searchLoop_noKey (env : Env) (h : env.apiKeySet = false)
    (outputDir searchOrient dlOrient : Str) (perPage : Nat)
    (termOf : Str → Str) :
    ∀ (qs : List Str) (st : St),
      searchLoop env outputDir searchOrient dlOrient perPage termOf qs st =
        (none, st) := by
  intro qs
  induction qs with
  | nil => intro st; simp [searchLoop]
  | cons q rest ih =>
    intro st
    simp only [searchLoop, h]
    exact ih st

/-- The cross-orientation loop performs no network call (helper). -/
theorem crossOrientLoop_net (outputDir : Str) :
    ∀ (os : List Str) (st : St),
      ((crossOrientLoop st outputDir os).2).netCalls = st.netCalls := by
  intro os
  induction os with
  | nil => intro st; simp [crossOrientLoop]
  | cons o rest ih =>
    intro st
    rw [crossOrientLoop]
    split
    · rename_i r st' hcl
      have h := cacheLoop_net outputDir "fallback_".data
        (findCachedClips st.clips [] o 20) st
      rw [hcl] at h
      exact h
    · rename_i st' hcl
      have h := cacheLoop_net outputDir "fallback_".data
        (findCachedClips st.clips [] o 20) st
      rw [hcl] at h
      exact (ih st').trans h

/-- With the API key absent, one scene attempt performs no network call
(helper). -/
theorem acquireScene_noKey_net (env : Env) (h : env.apiKeySet = false)
    (st : St) (outputDir orientation query : Str) :
    ((acquireScene env st outputDir orientation query).2).netCalls =
      st.netCalls := by
  rw [acquireScene]
  simp only [searchLoop_noKey env h]
  split
  · rename_i r st1 h1
    have hn := libraryLoop_net outputDir
      (searchMediaItems env.mediaDB query (some orientation)) st
    rw [h1] at hn
    exact hn
  · rename_i st1 h1
    have hn1 := libraryLoop_net outputDir
      (searchMediaItems env.mediaDB query (some orientation)) st
    rw [h1] at hn1
    split
    · rename_i r st2 h2
      have hn2 := cacheLoop_net outputDir "pexels_".data
        (findCachedClips st1.clips query orientation 5) st1
      rw [h2] at hn2
      exact hn2.trans hn1
    · rename_i st2 h2
      have hn2 := cacheLoop_net outputDir "pexels_".data
        (findCachedClips st1.clips query orientation 5) st1
      rw [h2] at hn2
      split
      · rename_i r st4 h4
        have hn4 := crossOrientLoop_net outputDir
          [orientation, oppositeOrientation orientation] st2
        rw [h4] at hn4
        exact (hn4.trans hn2).trans hn1
      · rename_i st4 h4
        have hn4 := crossOrientLoop_net outputDir
          [orientation, oppositeOrientation orientation] st2
        rw [h4] at hn4
        exact (hn4.trans hn2).trans hn1

/-- With the API key absent, a whole cascade run performs no network call
(helper). -/
theorem cascadeAux_noKey_net (env : Env) (h : env.apiKeySet = false)
    (outputDir orientation : Str) :
    ∀ (qs : List Str) (st : St),
      ((cascadeAux env outputDir orientation qs st).st).netCalls =
        st.netCalls := by
  intro qs
  induction qs with
  | nil => intro st; simp [cascadeAux]
  | cons q rest ih =>
    intro st
    rcases hacq : acquireScene env st outputDir orientation q with ⟨res, st'⟩
    rw [cascadeAux, hacq]
    have hn' := acquireScene_noKey_net env h st outputDir orientation q
    rw [hacq] at hn'
    match res with
    | none => exact (ih st').trans hn'
    | some (p, tag) => exact (ih st').trans hn'

/-- C8 counterexample: with the API key absent (and empty caches), the
cascade does NOT return a configuration error to its caller: it swallows
the missing-key throw inside tiers 3 and 5, attempts no network call, and
returns normally with the generic per-scene failure notice — the
configuration-error message appears nowhere in its output. -/
theorem c8_counterexample :
    (searchAndDownloadVideos bareEnv ["dog".data] "job".data 1
        "landscape".data [] []).paths = [] ∧
    (searchAndDownloadVideos bareEnv ["dog".data] "job".data 1
        "landscape".data [] []).errors = [noFootageMsg "dog".data] ∧
    "PEXELS_API_KEY is not set".data ∉
      (searchAndDownloadVideos bareEnv ["dog".data] "job".data 1
        "landscape".data [] []).errors ∧
    (searchAndDownloadVideos bareEnv ["dog".data] "job".data 1
        "landscape".data [] []).st.netCalls = 0 := by
  refine ⟨by decide, by decide, by decide, by decide⟩

/-- C8 amended: with the API key absent, each remote search
(`searchVideos`) itself fails with the configuration error before any
fetch is attempted; the cascade catches those errors internally, performs
zero network calls for every query list and orientation, and returns
normally with one outcome per scene (zero resolved paths are then treated
as fatal by the caller, not by the cascade). -/
theorem c8_missing_key_no_network (env : Env) (h : env.apiKeySet = false)
    (queries : List Str) (outputDir : Str) (clipsPerQuery : Nat)
    (orientation : Str) (clips0 : List CachedClip) (files0 : List Str)
    (q o : Str) (perPage : Nat) :
    searchVideos env q o perPage =
      Except.error "PEXELS_API_KEY is not set".data ∧
    (searchAndDownloadVideos env queries outputDir clipsPerQuery orientation
        clips0 files0).st.netCalls = 0 ∧
    (searchAndDownloadVideos env queries outputDir clipsPerQuery orientation
        clips0 files0).paths.length +
      (searchAndDownloadVideos env queries outputDir clipsPerQuery orientation
        clips0 files0).errors.length = queries.length := by
  unfold searchAndDownloadVideos
  refine ⟨by simp [searchVideos, h], ?_,
    (cascadeAux_count env outputDir orientation queries
      (initSt clips0 files0)).1⟩
  have hn := cascadeAux_noKey_net env h outputDir orientation queries
    (initSt clips0 files0)
  simpa [initSt] using hn

theorem c8_missing_key_no_network_witness :
    searchVideos bareEnv "dog".data "landscape".data 10 =
      Except.error "PEXELS_API_KEY is not set".data ∧
    (searchAndDownloadVideos bareEnv ["dog".data] "cats".data 1
        "landscape".data [] []).st.netCalls = 0 ∧
    (searchAndDownloadVideos bareEnv ["dog".data] "cats".data 1
        "landscape".data [] []).paths.length +
      (searchAndDownloadVideos bareEnv ["dog".data] "cats".data 1
        "landscape".data [] []).errors.length = 1 := by
  have h := c8_missing_key_no_network bareEnv rfl ["dog".data] "cats".data 1
    "landscape".data [] [] "dog".data "landscape".data 10
  simpa using h
